import Mathlib

/-
Verification development for the USB interface resolver (`usb-list.py`).

The script operates on a parsed property-list tree: nested Python dicts,
lists and scalars.  We embed that value space as `PLNode` and translate the
two functions the claims are about — `find_tty_by_interface_name` and
`extract_usb_info` — together with the CLI mode dispatch of `main`.

Python-specific behaviour is modelled explicitly:
  * `dict.get(k, d)` is association-list lookup with a default;
  * truthiness (`if x:`) follows Python rules per type;
  * `for x in v` succeeds on lists, dicts (keys) and strings (characters)
    and raises `TypeError` on other scalars; we model a raise as
    `Except.error ()` (for the resolver) or a `false` completion flag
    (for the printing routine, which keeps the lines printed so far);
  * `print` output is collected as a list of strings, one per call.
-/

/-- Scalar (non-container) Python values that can occur in a parsed plist. -/
inductive PLScalar : Type
  | str (s : String)
  | int (n : Int)
  | bool (b : Bool)
  | none
deriving Repr

/-- A Python value as produced by `plistlib`: dict, list or scalar.
Dicts are insertion-ordered association lists with distinct keys. -/
inductive PLNode : Type
  | dict (entries : List (String × PLNode))
  | list (items : List PLNode)
  | scalar (v : PLScalar)
deriving Repr

namespace UsbList

open PLNode PLScalar

/-- Test for `isinstance(x, dict)`. -/
def PLNode.isDict : PLNode → Bool
  | .dict _ => true
  | _ => false

/-- Test for `isinstance(x, list)`. -/
def PLNode.isList : PLNode → Bool
  | .list _ => true
  | _ => false

/-- Python `d[k]` lookup on a dict's entry list, as an `Option`. -/
def dictGet (es : List (String × PLNode)) (key : String) : Option PLNode :=
  (es.find? (fun e => e.1 == key)).map (fun e => e.2)

/-- Python `d.get(k, default)`. -/
def dictGetD (es : List (String × PLNode)) (key : String) (d : PLNode) : PLNode :=
  (dictGet es key).getD d

/-- Python truthiness of a value (`if x:`). -/
def truthy : PLNode → Bool
  | .dict es => !es.isEmpty
  | .list xs => !xs.isEmpty
  | .scalar (.str s) => !(s == "")
  | .scalar (.int n) => !(n == 0)
  | .scalar (.bool b) => b
  | .scalar .none => false

/-- Python `v == t` for a string literal `t`: only equal strings compare
equal; containers, numbers, booleans and `None` never equal a `str`. -/
def eqPyStr : PLNode → String → Bool
  | .scalar (.str s), t => s == t
  | _, _ => false

/-- Python `v == m` for an integer literal `m`; `True`/`False` compare as
`1`/`0`, every other non-int value compares unequal. -/
def eqPyInt : PLNode → Int → Bool
  | .scalar (.int n), m => n == m
  | .scalar (.bool b), m => (if b then (1 : Int) else 0) == m
  | _, _ => false

/-- Python `len(v)`: defined on dicts, lists and strings; `none` models the
`TypeError` raised on other scalars. -/
def pyLen : PLNode → Option Nat
  | .dict es => some es.length
  | .list xs => some xs.length
  | .scalar (.str s) => some s.length
  | _ => none

/-- Python `for x in v`: the sequence iterated over, when iteration is
possible — list items, dict keys, the characters of a string — and `none`
for the `TypeError` raised on non-iterable scalars. -/
def pyIter : PLNode → Option (List PLNode)
  | .list xs => some xs
  | .dict es => some (es.map (fun e => PLNode.scalar (.str e.1)))
  | .scalar (.str s) => some (s.data.map (fun c => PLNode.scalar (.str (String.mk [c]))))
  | _ => none

/-!  ## The resolver: `find_tty_by_interface_name`  -/

/-- Body of the innermost loop of `find_tty_by_interface_name`: for one
grandchild node, skip non-dicts, read `gc.get('IOTTYDevice', None)` and
return it when truthy. -/
def gcStep (gc : PLNode) : Option PLNode :=
  match gc with
  | .dict ges =>
    let t := dictGetD ges "IOTTYDevice" (.scalar .none)
    if truthy t then some t else Option.none
  | _ => Option.none

/-- Processing of one child inside the matched interface: skip non-dicts,
read `child.get('IORegistryEntryChildren', [])` and scan the grandchildren
for a truthy `IOTTYDevice`; iterating a non-iterable grandchild container
raises. -/
def searchChild (c : PLNode) : Except Unit (Option PLNode) :=
  match c with
  | .dict ces =>
    let gcv := dictGetD ces "IORegistryEntryChildren" (.list [])
    match pyIter gcv with
    | Option.none => .error ()
    | some gcs => .ok (gcs.findSome? gcStep)
  | _ => .ok Option.none

/-- The child loop: first truthy `IOTTYDevice` found among the children's
grandchildren, with raises propagated. -/
def searchChildren : List PLNode → Except Unit (Option PLNode)
  | [] => .ok Option.none
  | c :: rest =>
    match searchChild c with
    | .error e => .error e
    | .ok (some v) => .ok (some v)
    | .ok Option.none => searchChildren rest

/-- Scan of a name-matching class-10 interface: read
`interface.get('IORegistryEntryChildren', [])` and walk the children. -/
def searchMatchedInterface (es : List (String × PLNode)) : Except Unit (Option PLNode) :=
  let cv := dictGetD es "IORegistryEntryChildren" (.list [])
  match pyIter cv with
  | Option.none => .error ()
  | some children => searchChildren children

/-- The name test of the resolver: `interface.get('IORegistryEntryName', '')
!= interface_name` (negated). -/
def nameMatches (es : List (String × PLNode)) (target : String) : Bool :=
  eqPyStr (dictGetD es "IORegistryEntryName" (.scalar (.str ""))) target

/-- The class test of the resolver: `interface.get('bInterfaceClass') == 10`. -/
def classIs10 (es : List (String × PLNode)) : Bool :=
  eqPyInt (dictGetD es "bInterfaceClass" (.scalar .none)) 10

/-- One iteration of the top-level loop of `find_tty_by_interface_name`:
`.ok none` means fall through to the next interface, `.ok (some v)` means
`return v`, `.error ()` means an exception was raised. -/
def stepInterface (target : String) (iface : PLNode) : Except Unit (Option PLNode) :=
  match iface with
  | .dict es =>
    if nameMatches es target then
      if classIs10 es then searchMatchedInterface es
      else .ok Option.none
    else .ok Option.none
  | _ => .ok Option.none

/-- The top-level loop of `find_tty_by_interface_name` over the interface
list. -/
def findLoop (target : String) : List PLNode → Except Unit (Option PLNode)
  | [] => .ok Option.none
  | i :: rest =>
    match stepInterface target i with
    | .error e => .error e
    | .ok (some v) => .ok (some v)
    | .ok Option.none => findLoop target rest

/-- `find_tty_by_interface_name(pl, interface_name)`: returns the lines it
prints together with its result; a non-list top level prints the
diagnostic and returns `None`. -/
def find_tty_by_interface_name (pl : PLNode) (target : String) :
    List String × Except Unit (Option PLNode) :=
  match pl with
  | .list ifaces => ([], findLoop target ifaces)
  | _ => (["Error: Expected a list at the top level"], .ok Option.none)

/-!  ## String rendering used by the printed report  -/

mutual

/-- Python `repr(v)` for plist values (string escaping inside quotes is not
reproduced; no claim depends on it). -/
def pyRepr : PLNode → String
  | .scalar (.str s) => "\x27" ++ s ++ "\x27"
  | .scalar (.int n) => toString n
  | .scalar (.bool b) => cond b "True" "False"
  | .scalar .none => "None"
  | .dict es => "\x7b" ++ pyReprEntries es ++ "\x7d"
  | .list xs => "[" ++ pyReprItems xs ++ "]"

/-- Comma-separated `repr` of list items. -/
def pyReprItems : List PLNode → String
  | [] => ""
  | [x] => pyRepr x
  | x :: y :: xs => pyRepr x ++ ", " ++ pyReprItems (y :: xs)

/-- Comma-separated `repr` of dict entries. -/
def pyReprEntries : List (String × PLNode) → String
  | [] => ""
  | [e] => "\x27" ++ e.1 ++ "\x27: " ++ pyRepr e.2
  | e :: f :: es => "\x27" ++ e.1 ++ "\x27: " ++ pyRepr e.2 ++ ", " ++ pyReprEntries (f :: es)

end

/-- Python `str(v)` as interpolated by an f-string. -/
def pyStr : PLNode → String
  | .scalar (.str s) => s
  | v => pyRepr v

/-- Python `str(type(v))`, e.g. `<class \x27int\x27>`. -/
def pyTypeName : PLNode → String
  | .dict _ => "<class \x27dict\x27>"
  | .list _ => "<class \x27list\x27>"
  | .scalar (.str _) => "<class \x27str\x27>"
  | .scalar (.int _) => "<class \x27int\x27>"
  | .scalar (.bool _) => "<class \x27bool\x27>"
  | .scalar .none => "<class \x27NoneType\x27>"

/-!  ## The full dump: `extract_usb_info`

Printing routines return the lines printed so far together with a
completion flag: `true` means the code ran to completion, `false` means an
exception was raised after printing those lines.  -/

/-- Printed lines paired with a completed-without-exception flag. -/
def Out : Type := List String × Bool

/-- Sequencing of two printing computations: the second runs only when the
first completed. -/
def seqOut (a b : Out) : Out :=
  if a.2 then (a.1 ++ b.1, b.2) else a

/-- One grandchild line of the dump: named, with its TTY path when the
`IOTTYDevice` field is truthy; non-dict grandchildren print nothing. -/
def gcLines (k : Nat) (gc : PLNode) : List String :=
  match gc with
  | .dict ges =>
    let gcName := pyStr (dictGetD ges "IORegistryEntryName" (.scalar (.str "Unknown")))
    let t := dictGetD ges "IOTTYDevice" (.scalar .none)
    if truthy t then
      ["    - #" ++ toString (k + 1) ++ ": " ++ gcName ++ " (TTY: " ++ pyStr t ++ ")"]
    else
      ["    - #" ++ toString (k + 1) ++ ": " ++ gcName]
  | _ => []

/-- The grandchild loop of the dump (`for k, gc in enumerate(...)`). -/
def gcLoop (k : Nat) : List PLNode → List String
  | [] => []
  | gc :: rest => gcLines k gc ++ gcLoop (k + 1) rest

/-- One child of an interface in the dump: non-dicts are reported by index
only; dict children print a summary line and, when their grandchild
container is truthy, its length and the grandchild lines (`len`/iteration
of a non-sized container raises after the summary line). -/
def childLines (j : Nat) (c : PLNode) : Out :=
  match c with
  | .dict ces =>
    let cname := pyStr (dictGetD ces "IORegistryEntryName" (.scalar (.str "Unknown")))
    let cclass := pyStr (dictGetD ces "IOClass" (.scalar (.str "Unknown")))
    let head := "  - Child #" ++ toString (j + 1) ++ ": " ++ cname ++ " (Class: " ++ cclass ++ ")"
    let gcv := dictGetD ces "IORegistryEntryChildren" (.list [])
    if truthy gcv then
      match pyLen gcv, pyIter gcv with
      | some n, some gcs =>
        ([head, "    Grandchildren (" ++ toString n ++ "):"] ++ gcLoop 0 gcs, true)
      | _, _ => ([head], false)
    else ([head], true)
  | _ => (["  Child #" ++ toString (j + 1) ++ " is not a dictionary"], true)

/-- The child loop of the dump. -/
def childLoop (j : Nat) : List PLNode → Out
  | [] => ([], true)
  | c :: rest => seqOut (childLines j c) (childLoop (j + 1) rest)

/-- The optional `Product`/`Vendor`/`Serial` lines: printed only when the
key is present (`if key in interface:`). -/
def optLine (label : String) (es : List (String × PLNode)) (key : String) : List String :=
  match dictGet es key with
  | some v => [label ++ ": " ++ pyStr v]
  | Option.none => []

/-- The fixed field block printed for one dict interface entry: header,
name/class/subclass/protocol with `Unknown` defaults, the optional
product/vendor/serial lines, and the three IDs with `Unknown` defaults. -/
def basicLines (i : Nat) (es : List (String × PLNode)) : List String :=
  ["\n--- USB Interface #" ++ toString (i + 1) ++ " ---",
   "Name: " ++ pyStr (dictGetD es "IORegistryEntryName" (.scalar (.str "Unknown"))),
   "Class: " ++ pyStr (dictGetD es "bInterfaceClass" (.scalar (.str "Unknown"))),
   "SubClass: " ++ pyStr (dictGetD es "bInterfaceSubClass" (.scalar (.str "Unknown"))),
   "Protocol: " ++ pyStr (dictGetD es "bInterfaceProtocol" (.scalar (.str "Unknown")))]
  ++ optLine "Product" es "USB Product Name"
  ++ optLine "Vendor" es "USB Vendor Name"
  ++ optLine "Serial" es "USB Serial Number"
  ++ ["Vendor ID: " ++ pyStr (dictGetD es "idVendor" (.scalar (.str "Unknown"))),
      "Product ID: " ++ pyStr (dictGetD es "idProduct" (.scalar (.str "Unknown"))),
      "Location ID: " ++ pyStr (dictGetD es "locationID" (.scalar (.str "Unknown")))]

/-- The dump's treatment of one top-level element: a non-dict is reported
by index with its type; a dict prints its field block and then, when its
child container is truthy, the children header and the child loop
(`len`/iteration of a non-sized container raises after the field block). -/
def interfaceLines (i : Nat) (iface : PLNode) : Out :=
  match iface with
  | .dict es =>
    let cv := dictGetD es "IORegistryEntryChildren" (.list [])
    if truthy cv then
      match pyLen cv, pyIter cv with
      | some n, some cs =>
        seqOut (basicLines i es ++ ["\n  Children (" ++ toString n ++ "):"], true)
          (childLoop 0 cs)
      | _, _ => (basicLines i es, false)
    else (basicLines i es, true)
  | _ =>
    (["\nInterface #" ++ toString (i + 1) ++ " is not a dictionary, it\x27s a "
        ++ pyTypeName iface], true)

/-- The dump's top-level loop (`for i, interface in enumerate(pl)`). -/
def dumpLoop (i : Nat) : List PLNode → Out
  | [] => ([], true)
  | x :: rest => seqOut (interfaceLines i x) (dumpLoop (i + 1) rest)

/-- The dump branch of `extract_usb_info`: the count header followed by the
per-interface reports. -/
def dumpOut (xs : List PLNode) : Out :=
  seqOut (["Found " ++ toString xs.length ++ " USB interfaces"], true) (dumpLoop 0 xs)

/-- `extract_usb_info(pl, interface_name)`: a non-list top level prints the
diagnostic and returns; a truthy `interface_name` delegates to
`find_tty_by_interface_name` and prints one result line; otherwise the
full dump is printed. -/
def extract_usb_info (pl : PLNode) (interface_name : Option String) : Out :=
  match pl with
  | .list xs =>
    match interface_name with
    | some s =>
      if s == "" then dumpOut xs
      else
        let fr := find_tty_by_interface_name pl s
        match fr.2 with
        | .error _ => (fr.1, false)
        | .ok (some v) =>
          if truthy v then (fr.1 ++ ["TTY device for " ++ s ++ ": " ++ pyStr v], true)
          else (fr.1 ++ ["No TTY device found for interface: " ++ s], true)
        | .ok Option.none => (fr.1 ++ ["No TTY device found for interface: " ++ s], true)
    | Option.none => dumpOut xs
  | _ => (["Error: Expected a list at the top level"], true)

/-!  ## The mode dispatch of `main`  -/

/-- The two processing modes `main` can choose between. -/
inductive Mode : Type
  | dump
  | lookup (name : String)
deriving DecidableEq

/-- The dispatch `if args.list or not args.interface_name:
extract_usb_info(pl) else: extract_usb_info(pl, args.interface_name)`;
`not args.interface_name` is true for an absent or empty name. -/
def selectMode (listFlag : Bool) (interface_name : Option String) : Mode :=
  match interface_name with
  | Option.none => .dump
  | some s => if listFlag || s == "" then .dump else .lookup s

/-!  ## Spec-side description of the resolution result (for refinement)

The specification describes the result as the first depth-first grandchild
carrying a truthy `IOTTYDevice` under the first class-10 interface whose
name matches; the following definitions follow those words, restricting
the search to that first interface and reading the child containers as
plist `List`s as the spec's data model prescribes. -/

/-- Spec wording: the first interface entry that is a dict, whose
`IORegistryEntryName` equals the target (a missing name reads as the empty
string) and whose `bInterfaceClass` is 10. -/
def specFirstClass10Match (target : String) (ifaces : List PLNode) :
    Option (List (String × PLNode)) :=
  ifaces.findSome? fun n =>
    match n with
    | .dict es => if nameMatches es target && classIs10 es then some es else Option.none
    | _ => Option.none

/-- Spec wording: the first truthy `IOTTYDevice` among the grandchildren of
one child, the child's grandchild container being a plist list. -/
def specTtyOfChild (c : PLNode) : Option PLNode :=
  match c with
  | .dict ces =>
    match dictGetD ces "IORegistryEntryChildren" (.list []) with
    | .list gcs => gcs.findSome? gcStep
    | _ => Option.none
  | _ => Option.none

/-- Spec wording: the first depth-first grandchild with a truthy
`IOTTYDevice` under one interface entry, children scanned in list order. -/
def specFirstTty (es : List (String × PLNode)) : Option PLNode :=
  match dictGetD es "IORegistryEntryChildren" (.list []) with
  | .list cs => cs.findSome? specTtyOfChild
  | _ => Option.none

/-!  ## Shape predicates on interface entries (per the spec's data model,
`IORegistryEntryChildren` containers are plist `List`s)  -/

/-- A child whose grandchild container (defaulted to `[]`) is a plist list. -/
def childWF (c : PLNode) : Bool :=
  match c with
  | .dict ces =>
    match dictGetD ces "IORegistryEntryChildren" (.list []) with
    | .list _ => true
    | _ => false
  | _ => true

/-- An interface entry whose child container is a plist list of well-shaped
children. -/
def childrenWF (es : List (String × PLNode)) : Bool :=
  match dictGetD es "IORegistryEntryChildren" (.list []) with
  | .list cs => cs.all childWF
  | _ => false

/-- No grandchild of this child carries a truthy `IOTTYDevice`. -/
def childNoTty (c : PLNode) : Bool :=
  match c with
  | .dict ces =>
    match dictGetD ces "IORegistryEntryChildren" (.list []) with
    | .list gcs => gcs.all (fun gc => (gcStep gc).isNone)
    | _ => true
  | _ => true

/-- No grandchild anywhere below this interface entry carries a truthy
`IOTTYDevice`. -/
def entryNoTty (es : List (String × PLNode)) : Bool :=
  match dictGetD es "IORegistryEntryChildren" (.list []) with
  | .list cs => cs.all childNoTty
  | _ => true

/-!  ## Relating inputs that differ only below non-class-10 interfaces  -/

/-- Two interface entry lists that agree on every key other than
`IORegistryEntryChildren`. -/
def agreeOutsideChildren (es1 es2 : List (String × PLNode)) : Prop :=
  ∀ k, k ≠ "IORegistryEntryChildren" → dictGet es1 k = dictGet es2 k

/-- Two top-level elements that are equal, or are both dict entries whose
`bInterfaceClass` is not 10 and that differ at most in their
`IORegistryEntryChildren` content. -/
inductive nodeRel : PLNode → PLNode → Prop
  | refl (n : PLNode) : nodeRel n n
  | nonData (es1 es2 : List (String × PLNode)) :
      classIs10 es1 = false → classIs10 es2 = false →
      agreeOutsideChildren es1 es2 → nodeRel (.dict es1) (.dict es2)

/-- Pointwise `nodeRel` on top-level lists. -/
inductive listRel : List PLNode → List PLNode → Prop
  | nil : listRel [] []
  | cons {a b : PLNode} {l1 l2 : List PLNode} :
      nodeRel a b → listRel l1 l2 → listRel (a :: l1) (b :: l2)

/-!  ## General lemmas  -/

theorem findSome?_eq_none_of_all {α β : Type} (f : α → Option β) :
    ∀ l : List α, (∀ x ∈ l, f x = Option.none) → l.findSome? f = Option.none := by
  intro l h
  induction l with
  | nil => rfl
  | cons a l ih =>
    have ha := h a (List.mem_cons_self a l)
    have hrest := ih fun x hx => h x (List.mem_cons_of_mem a hx)
    simp [List.findSome?, ha, hrest]

theorem seqOut_assoc (a b c : Out) : seqOut (seqOut a b) c = seqOut a (seqOut b c) := by
  rcases a with ⟨la, fa⟩
  rcases b with ⟨lb, fb⟩
  cases fa <;> cases fb <;> simp [seqOut, List.append_assoc]

theorem seqOut_snd_true {a b : Out} (h : (seqOut a b).2 = true) : a.2 = true ∧ b.2 = true := by
  rcases a with ⟨la, fa⟩
  cases fa <;> simp_all [seqOut]

/-- Splitting the dump's top-level loop over an append, when the first part
completes. -/
theorem dumpLoop_append (post : List PLNode) :
    ∀ (pre : List PLNode) (i : Nat), (dumpLoop i pre).2 = true →
      dumpLoop i (pre ++ post) = seqOut (dumpLoop i pre) (dumpLoop (i + pre.length) post) := by
  intro pre
  induction pre with
  | nil => intro i _; simp [dumpLoop, seqOut]
  | cons p pre ih =>
    intro i h
    have e1 : dumpLoop i ((p :: pre) ++ post)
        = seqOut (interfaceLines i p) (dumpLoop (i + 1) (pre ++ post)) := rfl
    have e2 : dumpLoop i (p :: pre)
        = seqOut (interfaceLines i p) (dumpLoop (i + 1) pre) := rfl
    rw [e2] at h
    have h2 := seqOut_snd_true h
    rw [e1, e2, ih (i + 1) h2.2, ← seqOut_assoc]
    rw [show i + 1 + pre.length = i + (p :: pre).length by rw [List.length_cons]; omega]

/-- The field block is a prefix of whatever one dict interface prints. -/
theorem basicLines_prefix_of_interfaceLines (i : Nat) (es : List (String × PLNode)) :
    ∃ rest, (interfaceLines i (.dict es)).1 = basicLines i es ++ rest := by
  simp only [interfaceLines]
  cases htr : truthy (dictGetD es "IORegistryEntryChildren" (.list [])) with
  | false => exact ⟨[], by simp⟩
  | true =>
    cases hl : pyLen (dictGetD es "IORegistryEntryChildren" (.list [])) with
    | none =>
      cases hi : pyIter (dictGetD es "IORegistryEntryChildren" (.list [])) <;>
        exact ⟨[], by simp⟩
    | some n =>
      cases hi : pyIter (dictGetD es "IORegistryEntryChildren" (.list [])) with
      | none => exact ⟨[], by simp⟩
      | some cs =>
        refine ⟨["\n  Children (" ++ toString n ++ "):"] ++ (childLoop 0 cs).1, ?_⟩
        simp [seqOut]

/-- The resolver loop returns not-found when every element falls through. -/
theorem findLoop_none (target : String) :
    ∀ l : List PLNode, (∀ n ∈ l, stepInterface target n = .ok Option.none) →
      findLoop target l = .ok Option.none := by
  intro l h
  induction l with
  | nil => rfl
  | cons a l ih =>
    have ha := h a (List.mem_cons_self a l)
    have hrest := ih fun x hx => h x (List.mem_cons_of_mem a hx)
    simp only [findLoop, ha, hrest]

/-- A dict interface whose name does not match falls through. -/
theorem stepInterface_of_no_match {es : List (String × PLNode)} {target : String}
    (h : nameMatches es target = false) :
    stepInterface target (.dict es) = .ok Option.none := by
  simp [stepInterface, h]

/-- A non-dict element of the dump input produces exactly the type-mismatch
line. -/
theorem interfaceLines_non_dict {x : PLNode} (hx : PLNode.isDict x = false) (i : Nat) :
    interfaceLines i x
      = (["\nInterface #" ++ toString (i + 1) ++ " is not a dictionary, it\x27s a "
           ++ pyTypeName x], true) := by
  cases x <;> first | rfl | simp [PLNode.isDict] at hx

/-- Anything printed in the field block of a dict interface appears in the
dump output for that interface. -/
theorem mem_interfaceLines_of_mem_basic {i : Nat} {es : List (String × PLNode)} {s : String}
    (h : s ∈ basicLines i es) : s ∈ (interfaceLines i (.dict es)).1 := by
  obtain ⟨rest, hr⟩ := basicLines_prefix_of_interfaceLines i es
  rw [hr]
  exact List.mem_append_left _ h

/-!  ## Claim theorems  -/

/-- C4: on any input whose top level is not a list, both
`find_tty_by_interface_name` and `extract_usb_info` print the
"expected list" diagnostic and do nothing else: the resolver returns
`None` and the dump produces no report output. -/
theorem c4_not_list_diagnostic_only (pl : PLNode) (h : PLNode.isList pl = false)
    (target : String) (iname : Option String) :
    find_tty_by_interface_name pl target
      = (["Error: Expected a list at the top level"], .ok Option.none)
    ∧ extract_usb_info pl iname = (["Error: Expected a list at the top level"], true) := by
  cases pl with
  | list xs => simp [PLNode.isList] at h
  | dict es => exact ⟨rfl, rfl⟩
  | scalar v => exact ⟨rfl, rfl⟩

/-- Witness for C4: a dict at the top level. -/
theorem c4_witness :
    find_tty_by_interface_name (.dict []) "STM32 CDC ACM0"
      = (["Error: Expected a list at the top level"], .ok Option.none)
    ∧ extract_usb_info (.dict []) Option.none
      = (["Error: Expected a list at the top level"], true) :=
  c4_not_list_diagnostic_only (.dict []) rfl "STM32 CDC ACM0" Option.none

/-- C7: the `--list` flag forces the full dump even when a name is supplied,
and name-based lookup is selected exactly when `--list` is absent and a
non-empty name is given. -/
theorem c7_list_flag_precedence (l : Bool) (n : Option String) :
    (l = true → selectMode l n = Mode.dump)
    ∧ ∀ s, (selectMode l n = Mode.lookup s ↔ l = false ∧ n = some s ∧ s ≠ "") := by
  constructor
  · rintro rfl
    cases n with
    | none => rfl
    | some s => simp [selectMode]
  · intro s
    cases n with
    | none => simp [selectMode]
    | some t =>
      cases l with
      | true => simp [selectMode]
      | false =>
        by_cases ht : t = ""
        · subst ht
          simp only [selectMode]
          simp
          exact fun h => h.symm
        · simp only [selectMode, Bool.false_or]
          rw [if_neg (by simpa using ht)]
          simp only [Mode.lookup.injEq, Option.some.injEq, eq_self_iff_true, true_and]
          constructor
          · intro h
            exact ⟨h, h ▸ ht⟩
          · exact fun h => h.1

/-- Witness for C7: with `--list` set and a name supplied, the dump runs. -/
theorem c7_witness : selectMode true (some "STM32 CDC ACM0") = Mode.dump :=
  (c7_list_flag_precedence true (some "STM32 CDC ACM0")).1 rfl

/-- C8: name matching is exact string equality — when no interface entry's
(defaulted) `IORegistryEntryName` equals the target character for
character, resolution returns not-found. -/
theorem c8_exact_match_required (ifaces : List PLNode) (target : String)
    (h : ∀ es, PLNode.dict es ∈ ifaces → nameMatches es target = false) :
    find_tty_by_interface_name (.list ifaces) target = ([], .ok Option.none) := by
  have hall : ∀ n ∈ ifaces, stepInterface target n = .ok Option.none := by
    intro n hn
    cases n with
    | dict es => exact stepInterface_of_no_match (h es hn)
    | list xs => rfl
    | scalar v => rfl
  simp [find_tty_by_interface_name, findLoop_none target ifaces hall]

/-- Witness for C8: a name differing from the target only in letter case
does not match. -/
theorem c8_witness :
    find_tty_by_interface_name
      (.list [.dict [("IORegistryEntryName", .scalar (.str "stm32 cdc acm0")),
                     ("bInterfaceClass", .scalar (.int 10))]])
      "STM32 CDC ACM0" = ([], .ok Option.none) := by
  refine c8_exact_match_required _ _ ?_
  intro es hes
  simp only [List.mem_singleton, PLNode.dict.injEq] at hes
  subst hes
  rfl

/-- C9: with the empty string as target, a dict interface entry lacking
`IORegistryEntryName` counts as a name match (the missing key defaults to
`""`), so its descendants are searched whenever its class is 10. -/
theorem c9_missing_name_matches_empty_target (es : List (String × PLNode))
    (h : dictGet es "IORegistryEntryName" = Option.none) :
    nameMatches es "" = true
    ∧ (classIs10 es = true → stepInterface "" (.dict es) = searchMatchedInterface es) := by
  have hm : nameMatches es "" = true := by
    simp [nameMatches, dictGetD, h, eqPyStr]
  exact ⟨hm, fun hc => by simp [stepInterface, hm, hc]⟩

/-- Witness for C9: a class-10 entry with no name is searched under the
empty target. -/
theorem c9_witness :
    nameMatches [("bInterfaceClass", PLNode.scalar (.int 10))] "" = true
    ∧ stepInterface "" (.dict [("bInterfaceClass", PLNode.scalar (.int 10))])
        = searchMatchedInterface [("bInterfaceClass", PLNode.scalar (.int 10))] :=
  ⟨(c9_missing_name_matches_empty_target [("bInterfaceClass", PLNode.scalar (.int 10))] rfl).1,
   (c9_missing_name_matches_empty_target [("bInterfaceClass", PLNode.scalar (.int 10))] rfl).2 rfl⟩

/-- C10: malformed-element reporting applies only at the top level: a
non-dict top-level element is reported with its kind, a non-dict child is
reported by index without its kind, and a non-dict grandchild prints no
line at all. -/
theorem c10_nested_non_dict_policy (i j k : Nat) (x c gc : PLNode)
    (hx : PLNode.isDict x = false) (hc : PLNode.isDict c = false)
    (hgc : PLNode.isDict gc = false) :
    interfaceLines i x
      = (["\nInterface #" ++ toString (i + 1) ++ " is not a dictionary, it\x27s a "
           ++ pyTypeName x], true)
    ∧ childLines j c = (["  Child #" ++ toString (j + 1) ++ " is not a dictionary"], true)
    ∧ gcLines k gc = [] := by
  refine ⟨?_, ?_, ?_⟩
  · cases x <;> first | rfl | simp [PLNode.isDict] at hx
  · cases c <;> first | rfl | simp [PLNode.isDict] at hc
  · cases gc <;> first | rfl | simp [PLNode.isDict] at hgc

/-- Witness for C10 on concrete malformed nodes. -/
theorem c10_witness :
    interfaceLines 0 (.scalar (.int 5))
      = (["\nInterface #1 is not a dictionary, it\x27s a <class \x27int\x27>"], true)
    ∧ childLines 0 (.list [])
      = (["  Child #1 is not a dictionary"], true)
    ∧ gcLines 0 (.scalar (.str "x")) = [] :=
  c10_nested_non_dict_policy 0 0 0 _ _ _ rfl rfl rfl

/-- C6: a non-dict top-level element of the dump input is reported by its
index together with its actual kind, is not skipped silently, and the dump
continues with the remaining elements. -/
theorem c6_dump_reports_non_dict_and_continues (pre post : List PLNode) (x : PLNode)
    (hx : PLNode.isDict x = false) (hpre : (dumpLoop 0 pre).2 = true) :
    extract_usb_info (.list (pre ++ x :: post)) Option.none
      = seqOut (["Found " ++ toString (pre ++ x :: post).length ++ " USB interfaces"], true)
          (seqOut (dumpLoop 0 pre)
            (seqOut (["\nInterface #" ++ toString (pre.length + 1)
                       ++ " is not a dictionary, it\x27s a " ++ pyTypeName x], true)
              (dumpLoop (pre.length + 1) post))) := by
  have e0 : extract_usb_info (.list (pre ++ x :: post)) Option.none
      = seqOut (["Found " ++ toString (pre ++ x :: post).length ++ " USB interfaces"], true)
          (dumpLoop 0 (pre ++ x :: post)) := rfl
  rw [e0, dumpLoop_append (x :: post) pre 0 hpre]
  congr 1
  congr 1
  have e1 : dumpLoop (0 + pre.length) (x :: post)
      = seqOut (interfaceLines (0 + pre.length) x) (dumpLoop (0 + pre.length + 1) post) := rfl
  rw [e1, Nat.zero_add, interfaceLines_non_dict hx]

/-- Witness for C6: scenario C — an integer element followed by a valid
dict interface. -/
theorem c6_witness :
    extract_usb_info
      (.list [.scalar (.int 5), .dict [("IORegistryEntryName", PLNode.scalar (.str "A"))]])
      Option.none
      = (["Found 2 USB interfaces",
          "\nInterface #1 is not a dictionary, it\x27s a <class \x27int\x27>",
          "\n--- USB Interface #2 ---", "Name: A", "Class: Unknown", "SubClass: Unknown",
          "Protocol: Unknown", "Vendor ID: Unknown", "Product ID: Unknown",
          "Location ID: Unknown"], true) := by
  have h := c6_dump_reports_non_dict_and_continues []
    [.dict [("IORegistryEntryName", PLNode.scalar (.str "A"))]] (.scalar (.int 5)) rfl rfl
  exact h.trans (by rfl)

/-- C5 counterexample: an interface dict lacking every key is dumped with
`Unknown` for the seven defaulted fields, but the missing product, vendor
and serial fields get no `Unknown` substitute — their lines are absent. -/
theorem c5_counterexample :
    (extract_usb_info (.list [.dict []]) Option.none).1
      = ["Found 1 USB interfaces", "\n--- USB Interface #1 ---", "Name: Unknown",
         "Class: Unknown", "SubClass: Unknown", "Protocol: Unknown", "Vendor ID: Unknown",
         "Product ID: Unknown", "Location ID: Unknown"]
    ∧ "Product: Unknown" ∉ (extract_usb_info (.list [.dict []]) Option.none).1
    ∧ "Vendor: Unknown" ∉ (extract_usb_info (.list [.dict []]) Option.none).1
    ∧ "Serial: Unknown" ∉ (extract_usb_info (.list [.dict []]) Option.none).1 := by
  refine ⟨rfl, ?_, ?_, ?_⟩ <;> decide

/-- C5 (amended): a missing name, class, subclass, protocol, vendor-ID,
product-ID or location-ID key is dumped as the literal `Unknown`; missing
product, vendor and serial keys produce no line at all (the per-interface
report then consists of exactly the header and the seven defaulted
fields), and no exception is raised. -/
theorem c5_amended_unknown_defaults (i : Nat) (es : List (String × PLNode)) :
    (dictGet es "IORegistryEntryName" = Option.none →
        "Name: Unknown" ∈ (interfaceLines i (.dict es)).1)
    ∧ (dictGet es "bInterfaceClass" = Option.none →
        "Class: Unknown" ∈ (interfaceLines i (.dict es)).1)
    ∧ (dictGet es "bInterfaceSubClass" = Option.none →
        "SubClass: Unknown" ∈ (interfaceLines i (.dict es)).1)
    ∧ (dictGet es "bInterfaceProtocol" = Option.none →
        "Protocol: Unknown" ∈ (interfaceLines i (.dict es)).1)
    ∧ (dictGet es "idVendor" = Option.none →
        "Vendor ID: Unknown" ∈ (interfaceLines i (.dict es)).1)
    ∧ (dictGet es "idProduct" = Option.none →
        "Product ID: Unknown" ∈ (interfaceLines i (.dict es)).1)
    ∧ (dictGet es "locationID" = Option.none →
        "Location ID: Unknown" ∈ (interfaceLines i (.dict es)).1)
    ∧ (dictGet es "IORegistryEntryChildren" = Option.none →
       dictGet es "USB Product Name" = Option.none →
       dictGet es "USB Vendor Name" = Option.none →
       dictGet es "USB Serial Number" = Option.none →
         interfaceLines i (.dict es)
           = (["\n--- USB Interface #" ++ toString (i + 1) ++ " ---",
               "Name: " ++ pyStr (dictGetD es "IORegistryEntryName" (.scalar (.str "Unknown"))),
               "Class: " ++ pyStr (dictGetD es "bInterfaceClass" (.scalar (.str "Unknown"))),
               "SubClass: " ++ pyStr (dictGetD es "bInterfaceSubClass" (.scalar (.str "Unknown"))),
               "Protocol: " ++ pyStr (dictGetD es "bInterfaceProtocol" (.scalar (.str "Unknown"))),
               "Vendor ID: " ++ pyStr (dictGetD es "idVendor" (.scalar (.str "Unknown"))),
               "Product ID: " ++ pyStr (dictGetD es "idProduct" (.scalar (.str "Unknown"))),
               "Location ID: " ++ pyStr (dictGetD es "locationID" (.scalar (.str "Unknown")))],
              true)) := by
  refine ⟨?_, ?_, ?_, ?_, ?_, ?_, ?_, ?_⟩
  · intro h
    refine mem_interfaceLines_of_mem_basic ?_
    unfold basicLines
    rw [show dictGetD es "IORegistryEntryName" (.scalar (.str "Unknown"))
          = PLNode.scalar (.str "Unknown") from by simp [dictGetD, h]]
    rw [show ("Name: " ++ pyStr (PLNode.scalar (.str "Unknown"))) = "Name: Unknown" from rfl]
    simp
  · intro h
    refine mem_interfaceLines_of_mem_basic ?_
    unfold basicLines
    rw [show dictGetD es "bInterfaceClass" (.scalar (.str "Unknown"))
          = PLNode.scalar (.str "Unknown") from by simp [dictGetD, h]]
    rw [show ("Class: " ++ pyStr (PLNode.scalar (.str "Unknown"))) = "Class: Unknown" from rfl]
    simp
  · intro h
    refine mem_interfaceLines_of_mem_basic ?_
    unfold basicLines
    rw [show dictGetD es "bInterfaceSubClass" (.scalar (.str "Unknown"))
          = PLNode.scalar (.str "Unknown") from by simp [dictGetD, h]]
    rw [show ("SubClass: " ++ pyStr (PLNode.scalar (.str "Unknown"))) = "SubClass: Unknown"
          from rfl]
    simp
  · intro h
    refine mem_interfaceLines_of_mem_basic ?_
    unfold basicLines
    rw [show dictGetD es "bInterfaceProtocol" (.scalar (.str "Unknown"))
          = PLNode.scalar (.str "Unknown") from by simp [dictGetD, h]]
    rw [show ("Protocol: " ++ pyStr (PLNode.scalar (.str "Unknown"))) = "Protocol: Unknown"
          from rfl]
    simp
  · intro h
    refine mem_interfaceLines_of_mem_basic ?_
    unfold basicLines
    rw [show dictGetD es "idVendor" (.scalar (.str "Unknown"))
          = PLNode.scalar (.str "Unknown") from by simp [dictGetD, h]]
    rw [show ("Vendor ID: " ++ pyStr (PLNode.scalar (.str "Unknown"))) = "Vendor ID: Unknown"
          from rfl]
    simp
  · intro h
    refine mem_interfaceLines_of_mem_basic ?_
    unfold basicLines
    rw [show dictGetD es "idProduct" (.scalar (.str "Unknown"))
          = PLNode.scalar (.str "Unknown") from by simp [dictGetD, h]]
    rw [show ("Product ID: " ++ pyStr (PLNode.scalar (.str "Unknown"))) = "Product ID: Unknown"
          from rfl]
    simp
  · intro h
    refine mem_interfaceLines_of_mem_basic ?_
    unfold basicLines
    rw [show dictGetD es "locationID" (.scalar (.str "Unknown"))
          = PLNode.scalar (.str "Unknown") from by simp [dictGetD, h]]
    rw [show ("Location ID: " ++ pyStr (PLNode.scalar (.str "Unknown")))
          = "Location ID: Unknown" from rfl]
    simp
  · intro hch hp hv hs
    have hcv : dictGetD es "IORegistryEntryChildren" (.list []) = PLNode.list [] := by
      simp [dictGetD, hch]
    simp [interfaceLines, hcv, truthy, basicLines, optLine, hp, hv, hs]

/-- Witness for C5 (amended) at the empty interface dict. -/
theorem c5_witness :
    "Name: Unknown" ∈ (interfaceLines 0 (.dict [])).1
    ∧ interfaceLines 0 (.dict [])
        = (["\n--- USB Interface #1 ---", "Name: Unknown", "Class: Unknown",
            "SubClass: Unknown", "Protocol: Unknown", "Vendor ID: Unknown",
            "Product ID: Unknown", "Location ID: Unknown"], true) :=
  ⟨(c5_amended_unknown_defaults 0 []).1 rfl,
   ((c5_amended_unknown_defaults 0 []).2.2.2.2.2.2.2 rfl rfl rfl rfl).trans (by rfl)⟩

/-- Related entry lists give the same name-match verdict. -/
theorem nameMatches_congr {es1 es2 : List (String × PLNode)}
    (h : agreeOutsideChildren es1 es2) (t : String) :
    nameMatches es1 t = nameMatches es2 t := by
  unfold nameMatches dictGetD
  rw [h "IORegistryEntryName" (by decide)]

/-- Related top-level elements behave identically in the resolver loop. -/
theorem stepInterface_congr {a b : PLNode} (h : nodeRel a b) (t : String) :
    stepInterface t a = stepInterface t b := by
  cases h with
  | refl n => rfl
  | nonData es1 es2 h1 h2 hag =>
    simp only [stepInterface]
    rw [nameMatches_congr hag t]
    cases hn : nameMatches es2 t <;> simp [hn, h1, h2]

/-- Related top-level lists resolve identically. -/
theorem findLoop_congr (t : String) {l1 l2 : List PLNode} (h : listRel l1 l2) :
    findLoop t l1 = findLoop t l2 := by
  induction h with
  | nil => rfl
  | cons hab hrest ih =>
    simp only [findLoop]
    rw [stepInterface_congr hab t, ih]

/-- C2: the resolver's result never depends on the children of a
name-matching interface whose `bInterfaceClass` differs from 10 — two
inputs differing only in the `IORegistryEntryChildren` content of
non-class-10 dict entries resolve identically (only class-10 interfaces
are descended into). -/
theorem c2_non_class10_children_irrelevant {l1 l2 : List PLNode} (h : listRel l1 l2)
    (target : String) :
    find_tty_by_interface_name (.list l1) target
      = find_tty_by_interface_name (.list l2) target := by
  simp [find_tty_by_interface_name, findLoop_congr target h]

/-- Witness for C2: two sibling lists whose class-2 interface carries
different children (one of them even holding a TTY node) resolve alike. -/
theorem c2_witness :
    find_tty_by_interface_name
      (.list [.dict [("IORegistryEntryName", PLNode.scalar (.str "STM32 CDC ACM0")),
                     ("bInterfaceClass", PLNode.scalar (.int 2)),
                     ("IORegistryEntryChildren",
                      PLNode.list [.dict [("IORegistryEntryChildren",
                        PLNode.list [.dict [("IOTTYDevice", PLNode.scalar (.str "/dev/wrong"))]])]])]])
      "STM32 CDC ACM0"
      = find_tty_by_interface_name
          (.list [.dict [("IORegistryEntryName", PLNode.scalar (.str "STM32 CDC ACM0")),
                         ("bInterfaceClass", PLNode.scalar (.int 2)),
                         ("IORegistryEntryChildren", PLNode.list [])]])
          "STM32 CDC ACM0" := by
  refine c2_non_class10_children_irrelevant ?_ "STM32 CDC ACM0"
  refine listRel.cons (nodeRel.nonData _ _ rfl rfl ?_) listRel.nil
  intro k hk
  have hne : (("IORegistryEntryChildren" : String) == k) = false :=
    beq_eq_false_iff_ne.mpr fun he => hk he.symm
  simp [dictGet, List.find?, hne]

/-- A child list with list-shaped grandchild containers and no truthy
`IOTTYDevice` anywhere scans to a miss without raising. -/
theorem searchChildren_none (cs : List PLNode) (hwf : cs.all childWF = true)
    (hnt : cs.all childNoTty = true) : searchChildren cs = .ok Option.none := by
  induction cs with
  | nil => rfl
  | cons c rest ih =>
    simp only [List.all_cons, Bool.and_eq_true] at hwf hnt
    have hc : searchChild c = .ok Option.none := by
      cases c with
      | dict ces =>
        have hw := hwf.1
        have hn := hnt.1
        cases hgc : dictGetD ces "IORegistryEntryChildren" (.list []) with
        | list gcs =>
          simp only [childNoTty, hgc] at hn
          have hfs : gcs.findSome? gcStep = Option.none := by
            refine findSome?_eq_none_of_all gcStep gcs fun gc hgcm => ?_
            exact Option.isNone_iff_eq_none.mp ((List.all_eq_true.mp hn) gc hgcm)
          simp [searchChild, hgc, pyIter, hfs]
        | dict es2 => simp [childWF, hgc] at hw
        | scalar v => simp [childWF, hgc] at hw
      | list xs => rfl
      | scalar v => rfl
    simp only [searchChildren, hc]
    exact ih hwf.2 hnt.2

/-- A well-shaped interface entry with no truthy `IOTTYDevice` below it is
scanned to a miss without raising. -/
theorem searchMatchedInterface_none {es : List (String × PLNode)}
    (hwf : childrenWF es = true) (hnt : entryNoTty es = true) :
    searchMatchedInterface es = .ok Option.none := by
  cases hcv : dictGetD es "IORegistryEntryChildren" (.list []) with
  | list cs =>
    simp only [childrenWF, hcv] at hwf
    simp only [entryNoTty, hcv] at hnt
    simp [searchMatchedInterface, hcv, pyIter, searchChildren_none cs hwf hnt]
  | dict es2 => simp [childrenWF, hcv] at hwf
  | scalar v => simp [childrenWF, hcv] at hwf

/-- C3: when every name-matching class-10 interface has list-shaped child
containers and none of its children or grandchildren carries a truthy
`IOTTYDevice`, resolution returns the not-found signal `None` and raises
no exception. -/
theorem c3_no_tty_returns_none (ifaces : List PLNode) (target : String)
    (h : ∀ es, PLNode.dict es ∈ ifaces → nameMatches es target = true →
         classIs10 es = true → childrenWF es = true ∧ entryNoTty es = true) :
    find_tty_by_interface_name (.list ifaces) target = ([], .ok Option.none) := by
  have hall : ∀ n ∈ ifaces, stepInterface target n = .ok Option.none := by
    intro n hn
    cases n with
    | dict es =>
      cases hm : nameMatches es target with
      | false => exact stepInterface_of_no_match hm
      | true =>
        cases hc : classIs10 es with
        | false => simp [stepInterface, hm, hc]
        | true =>
          obtain ⟨hwf, hnt⟩ := h es hn hm hc
          simp [stepInterface, hm, hc, searchMatchedInterface_none hwf hnt]
    | list xs => rfl
    | scalar v => rfl
  simp [find_tty_by_interface_name, findLoop_none target ifaces hall]

/-- Witness for C3: a matching class-10 interface whose grandchild carries
no `IOTTYDevice`. -/
theorem c3_witness :
    find_tty_by_interface_name
      (.list [.dict [("IORegistryEntryName", PLNode.scalar (.str "STM32 CDC ACM0")),
                     ("bInterfaceClass", PLNode.scalar (.int 10)),
                     ("IORegistryEntryChildren",
                      PLNode.list [.dict [("IORegistryEntryChildren",
                        PLNode.list [.dict [("IORegistryEntryName",
                          PLNode.scalar (.str "leaf"))]])]])]])
      "STM32 CDC ACM0" = ([], .ok Option.none) := by
  refine c3_no_tty_returns_none _ _ ?_
  intro es hes hm hc
  simp only [List.mem_singleton, PLNode.dict.injEq] at hes
  subst hes
  exact ⟨rfl, rfl⟩

/-- Early exit of `findSome?` is stable under appending. -/
theorem findSome?_append_of_some {α β : Type} (f : α → Option β) {l1 : List α}
    (l2 : List α) {b : β} (h : l1.findSome? f = some b) :
    (l1 ++ l2).findSome? f = some b := by
  induction l1 with
  | nil => simp [List.findSome?] at h
  | cons a l ih =>
    cases hfa : f a with
    | some c =>
      simp [List.findSome?, hfa] at h
      simp [List.findSome?, hfa, h]
    | none =>
      simp only [List.findSome?, hfa] at h
      simp only [List.cons_append, List.findSome?, hfa]
      exact ih h

/-- Whenever one child's scan does not raise, the code's scan of that child
computes exactly the spec-side first-grandchild hit. -/
theorem searchChild_agrees {c : PLNode} (hne : searchChild c ≠ .error ()) :
    searchChild c = .ok (specTtyOfChild c) := by
  cases c with
  | dict ces =>
    cases hgc : dictGetD ces "IORegistryEntryChildren" (.list []) with
    | list gcs => simp [searchChild, specTtyOfChild, hgc, pyIter]
    | dict es2 =>
      have hfs : (es2.map (fun e => PLNode.scalar (.str e.1))).findSome? gcStep
          = Option.none := by
        refine findSome?_eq_none_of_all _ _ fun x hx => ?_
        obtain ⟨e, he, rfl⟩ := List.mem_map.mp hx
        rfl
      simp [searchChild, specTtyOfChild, hgc, pyIter, hfs]
    | scalar w =>
      cases w with
      | str s =>
        have hfs : (s.data.map (fun ch => PLNode.scalar (.str (String.mk [ch])))).findSome?
            gcStep = Option.none := by
          refine findSome?_eq_none_of_all _ _ fun x hx => ?_
          obtain ⟨ch, hch, rfl⟩ := List.mem_map.mp hx
          rfl
        simp [searchChild, specTtyOfChild, hgc, pyIter, hfs]
      | int n => exact absurd (by simp [searchChild, hgc, pyIter]) hne
      | bool b => exact absurd (by simp [searchChild, hgc, pyIter]) hne
      | none => exact absurd (by simp [searchChild, hgc, pyIter]) hne
  | list xs => rfl
  | scalar w => rfl

/-- A non-raising child scan that the spec resolves to a hit computes that
hit. -/
theorem searchChildren_agrees {v : PLNode} :
    ∀ cs : List PLNode, searchChildren cs ≠ .error () →
      cs.findSome? specTtyOfChild = some v → searchChildren cs = .ok (some v) := by
  intro cs
  induction cs with
  | nil => intro _ hs; simp [List.findSome?] at hs
  | cons c rest ih =>
    intro hne hs
    have hcne : searchChild c ≠ .error () := by
      intro he
      exact hne (by simp [searchChildren, he])
    have hc := searchChild_agrees hcne
    cases hsc : specTtyOfChild c with
    | some w =>
      rw [hsc] at hc
      have hwv : w = v := by simpa [List.findSome?, hsc] using hs
      subst hwv
      simp [searchChildren, hc]
    | none =>
      rw [hsc] at hc
      have hs' : rest.findSome? specTtyOfChild = some v := by
        simpa [List.findSome?, hsc] using hs
      have hne' : searchChildren rest ≠ .error () := by
        intro he
        exact hne (by simp [searchChildren, hc, he])
      simp [searchChildren, hc]
      exact ih hne' hs'

/-- A non-raising interface scan that the spec resolves to a hit computes
that hit. -/
theorem searchMatched_agrees {es : List (String × PLNode)} {v : PLNode}
    (hne : searchMatchedInterface es ≠ .error ()) (hs : specFirstTty es = some v) :
    searchMatchedInterface es = .ok (some v) := by
  cases hcv : dictGetD es "IORegistryEntryChildren" (.list []) with
  | list cs =>
    have hs' : cs.findSome? specTtyOfChild = some v := by
      simpa [specFirstTty, hcv] using hs
    have hne' : searchChildren cs ≠ .error () := by
      intro he
      exact hne (by simp [searchMatchedInterface, hcv, pyIter, he])
    simp [searchMatchedInterface, hcv, pyIter, searchChildren_agrees cs hne' hs']
  | dict es2 => simp [specFirstTty, hcv] at hs
  | scalar w => simp [specFirstTty, hcv] at hs

/-- The resolver loop returns the spec-side hit below the first class-10
name match. -/
theorem findLoop_spec_first_hit (target : String) {es : List (String × PLNode)} {v : PLNode}
    (hhit : specFirstTty es = some v) (hne : searchMatchedInterface es ≠ .error ()) :
    ∀ l : List PLNode, specFirstClass10Match target l = some es →
      findLoop target l = .ok (some v) := by
  intro l
  induction l with
  | nil => intro h; simp [specFirstClass10Match, List.findSome?] at h
  | cons a rest ih =>
    intro h
    cases a with
    | dict aes =>
      cases hcnd : (nameMatches aes target && classIs10 aes) with
      | true =>
        obtain ⟨hm, hc⟩ : nameMatches aes target = true ∧ classIs10 aes = true := by
          simpa using hcnd
        have haes : aes = es := by
          simpa [specFirstClass10Match, List.findSome?, hcnd] using h
        subst haes
        simp [findLoop, stepInterface, hm, hc, searchMatched_agrees hne hhit]
      | false =>
        have h' : specFirstClass10Match target rest = some es := by
          simpa [specFirstClass10Match, List.findSome?, hcnd] using h
        have hstep : stepInterface target (.dict aes) = .ok Option.none := by
          cases hm : nameMatches aes target with
          | false => exact stepInterface_of_no_match hm
          | true =>
            have hcl : classIs10 aes = false := by
              cases hcc : classIs10 aes
              · rfl
              · rw [hm, hcc] at hcnd; simp at hcnd
            simp [stepInterface, hm, hcl]
        simp only [findLoop, hstep]
        exact ih h'
    | list xs =>
      have h' : specFirstClass10Match target rest = some es := by
        simpa [specFirstClass10Match, List.findSome?] using h
      exact (show findLoop target (PLNode.list xs :: rest) = findLoop target rest
        from rfl).trans (ih h')
    | scalar s =>
      have h' : specFirstClass10Match target rest = some es := by
        simpa [specFirstClass10Match, List.findSome?] using h
      exact (show findLoop target (PLNode.scalar s :: rest) = findLoop target rest
        from rfl).trans (ih h')

/-- C1: when, below the first class-10 interface whose name equals the
target, there is (depth-first, in list order) a grandchild carrying a
truthy `IOTTYDevice`, and scanning that interface raises no exception, the
resolver returns exactly that first grandchild's value — and it terminates
on that hit: appending further interfaces never changes the result. -/
theorem c1_first_class10_first_grandchild (ifaces : List PLNode) (target : String)
    (es : List (String × PLNode)) (v : PLNode)
    (hfirst : specFirstClass10Match target ifaces = some es)
    (hhit : specFirstTty es = some v)
    (hne : searchMatchedInterface es ≠ .error ()) :
    find_tty_by_interface_name (.list ifaces) target = ([], .ok (some v))
    ∧ ∀ extra, find_tty_by_interface_name (.list (ifaces ++ extra)) target
        = ([], .ok (some v)) := by
  constructor
  · simp [find_tty_by_interface_name,
      findLoop_spec_first_hit target hhit hne ifaces hfirst]
  · intro extra
    have hfirst' : specFirstClass10Match target (ifaces ++ extra) = some es := by
      unfold specFirstClass10Match at hfirst ⊢
      exact findSome?_append_of_some _ extra hfirst
    simp [find_tty_by_interface_name,
      findLoop_spec_first_hit target hhit hne (ifaces ++ extra) hfirst']

/-- Witness for C1: scenario A — a class-2 and a class-10 sibling share the
name; the TTY under the class-10 one is returned. -/
theorem c1_witness :
    find_tty_by_interface_name
      (.list [.dict [("IORegistryEntryName", PLNode.scalar (.str "STM32 CDC ACM0")),
                     ("bInterfaceClass", PLNode.scalar (.int 2))],
              .dict [("IORegistryEntryName", PLNode.scalar (.str "STM32 CDC ACM0")),
                     ("bInterfaceClass", PLNode.scalar (.int 10)),
                     ("IORegistryEntryChildren",
                      PLNode.list [.dict [("IORegistryEntryChildren",
                        PLNode.list [.dict [("IOTTYDevice",
                          PLNode.scalar (.str "/dev/cu.usbmodem14203"))]])]])]])
      "STM32 CDC ACM0"
      = ([], .ok (some (PLNode.scalar (.str "/dev/cu.usbmodem14203")))) :=
  (c1_first_class10_first_grandchild
    [.dict [("IORegistryEntryName", PLNode.scalar (.str "STM32 CDC ACM0")),
            ("bInterfaceClass", PLNode.scalar (.int 2))],
     .dict [("IORegistryEntryName", PLNode.scalar (.str "STM32 CDC ACM0")),
            ("bInterfaceClass", PLNode.scalar (.int 10)),
            ("IORegistryEntryChildren",
             PLNode.list [.dict [("IORegistryEntryChildren",
               PLNode.list [.dict [("IOTTYDevice",
                 PLNode.scalar (.str "/dev/cu.usbmodem14203"))]])]])]]
    "STM32 CDC ACM0"
    [("IORegistryEntryName", PLNode.scalar (.str "STM32 CDC ACM0")),
     ("bInterfaceClass", PLNode.scalar (.int 10)),
     ("IORegistryEntryChildren",
      PLNode.list [.dict [("IORegistryEntryChildren",
        PLNode.list [.dict [("IOTTYDevice",
          PLNode.scalar (.str "/dev/cu.usbmodem14203"))]])]])]
    (PLNode.scalar (.str "/dev/cu.usbmodem14203"))
    rfl rfl
    (by
      intro hcontra
      rw [show searchMatchedInterface
            [("IORegistryEntryName", PLNode.scalar (.str "STM32 CDC ACM0")),
             ("bInterfaceClass", PLNode.scalar (.int 10)),
             ("IORegistryEntryChildren",
              PLNode.list [.dict [("IORegistryEntryChildren",
                PLNode.list [.dict [("IOTTYDevice",
                  PLNode.scalar (.str "/dev/cu.usbmodem14203"))]])]])]
          = Except.ok (some (PLNode.scalar (.str "/dev/cu.usbmodem14203"))) from rfl] at hcontra
      exact Except.noConfusion hcontra)).1

end UsbList
